import Mathlib

/-!
Shallow embedding of the soil-test recommendation engine
(`src/utils.py` of Thapa2003/all-project).

Measurements are modelled as exact rationals (`ℚ`); the Python engine is a
pure function of four numbers, translated branch for branch.
-/

namespace SoilApp

/-- Priority levels carried by actions and recommendations. -/
inductive Priority where
  | low
  | medium
  | high
deriving DecidableEq, Repr

/-- Numeric severity of a priority, with high > medium > low. -/
def Priority.sev : Priority → Nat
  | .low => 0
  | .medium => 1
  | .high => 2

/-- One entry of the `actions` list built by the engine
(the Python dict keys `type`, `action`, `amount`, `priority`). -/
structure Action where
  type : String
  action : String
  amount : String
  priority : Priority
deriving DecidableEq, Repr

/-- `SoilTest` record from `src/models.py`; the engine reads only
`ph`, `nitrogen`, `phosphorus`, `potassium`. -/
structure SoilTest where
  id : Option Int
  location : String
  latitude : Option ℚ
  longitude : Option ℚ
  ph : ℚ
  nitrogen : ℚ
  phosphorus : ℚ
  potassium : ℚ
  notes : String
  test_date : String
deriving DecidableEq, Repr

/-- Result dictionary of `generate_fertilizer_recommendations`. -/
structure Recommendation where
  overall : String
  ph_recommendation : String
  nitrogen_recommendation : String
  phosphorus_recommendation : String
  potassium_recommendation : String
  priority : Priority
  actions : List Action
deriving DecidableEq, Repr

/-- `calculate_lime_requirement` from `src/utils.py`. -/
def calculate_lime_requirement (ph : ℚ) : Int :=
  if ph < 5.0 then 15
  else if ph < 5.5 then 12
  else if ph < 6.0 then 8
  else 5

/-- `calculate_sulfur_requirement` from `src/utils.py`. -/
def calculate_sulfur_requirement (ph : ℚ) : Int :=
  if ph > 8.0 then 10
  else if ph > 7.5 then 6
  else 3

/-- `calculate_nitrogen_requirement` from `src/utils.py`. -/
def calculate_nitrogen_requirement (nitrogen : ℚ) : Int :=
  if nitrogen < 10 then 4
  else if nitrogen < 20 then 2
  else 1

/-- `calculate_phosphorus_requirement` from `src/utils.py`. -/
def calculate_phosphorus_requirement (phosphorus : ℚ) : Int :=
  if phosphorus < 5 then 3
  else if phosphorus < 15 then 2
  else 1

/-- `calculate_potassium_requirement` from `src/utils.py`. -/
def calculate_potassium_requirement (potassium : ℚ) : Int :=
  if potassium < 50 then 4
  else if potassium < 100 then 3
  else 1

/-- The `ph_recommendation` message assigned by the pH block of
`generate_fertilizer_recommendations`. -/
def ph_recommendation_msg (soil_test : SoilTest) : String :=
  if soil_test.ph < 6.0 then
    s!"Soil is acidic (pH {soil_test.ph}). Apply lime to raise pH to 6.0-7.0 range for optimal nutrient availability."
  else if soil_test.ph > 7.5 then
    s!"Soil is alkaline (pH {soil_test.ph}). Apply sulfur or organic matter to lower pH."
  else
    s!"pH level ({soil_test.ph}) is optimal for most crops."

/-- The actions appended by the pH block of
`generate_fertilizer_recommendations`. -/
def ph_actions (soil_test : SoilTest) : List Action :=
  if soil_test.ph < 6.0 then
    [{ type := "pH adjustment", action := "Apply agricultural lime",
       amount := s!"{calculate_lime_requirement soil_test.ph} lbs per 1000 sq ft",
       priority := .high }]
  else if soil_test.ph > 7.5 then
    [{ type := "pH adjustment", action := "Apply elemental sulfur",
       amount := s!"{calculate_sulfur_requirement soil_test.ph} lbs per 1000 sq ft",
       priority := .high }]
  else []

/-- The `nitrogen_recommendation` message assigned by the nitrogen block of
`generate_fertilizer_recommendations`. -/
def nitrogen_recommendation_msg (soil_test : SoilTest) : String :=
  if soil_test.nitrogen < 20 then
    s!"Low nitrogen levels ({soil_test.nitrogen} ppm). Apply nitrogen-rich fertilizer or compost."
  else if soil_test.nitrogen > 50 then
    s!"High nitrogen levels ({soil_test.nitrogen} ppm). Reduce nitrogen fertilization to prevent burning and runoff."
  else
    s!"Nitrogen levels ({soil_test.nitrogen} ppm) are adequate."

/-- The actions appended by the nitrogen block of
`generate_fertilizer_recommendations`. -/
def nitrogen_actions (soil_test : SoilTest) : List Action :=
  if soil_test.nitrogen < 20 then
    [{ type := "nitrogen", action := "Apply nitrogen fertilizer (21-0-0 or similar)",
       amount := s!"{calculate_nitrogen_requirement soil_test.nitrogen} lbs per 1000 sq ft",
       priority := .medium }]
  else if soil_test.nitrogen > 50 then
    [{ type := "nitrogen", action := "Reduce or skip nitrogen fertilization",
       amount := "Monitor and test again in 6 months",
       priority := .low }]
  else []

/-- The `phosphorus_recommendation` message assigned by the phosphorus block
of `generate_fertilizer_recommendations`. -/
def phosphorus_recommendation_msg (soil_test : SoilTest) : String :=
  if soil_test.phosphorus < 15 then
    s!"Low phosphorus levels ({soil_test.phosphorus} ppm). Apply phosphorus fertilizer for strong root development."
  else if soil_test.phosphorus > 50 then
    s!"High phosphorus levels ({soil_test.phosphorus} ppm). Avoid phosphorus fertilizers."
  else
    s!"Phosphorus levels ({soil_test.phosphorus} ppm) are sufficient."

/-- The actions appended by the phosphorus block of
`generate_fertilizer_recommendations`. -/
def phosphorus_actions (soil_test : SoilTest) : List Action :=
  if soil_test.phosphorus < 15 then
    [{ type := "phosphorus", action := "Apply phosphorus fertilizer (0-46-0 or bone meal)",
       amount := s!"{calculate_phosphorus_requirement soil_test.phosphorus} lbs per 1000 sq ft",
       priority := .medium }]
  else if soil_test.phosphorus > 50 then
    [{ type := "phosphorus", action := "Skip phosphorus fertilization",
       amount := "Use low or no-phosphorus fertilizers",
       priority := .low }]
  else []

/-- The `potassium_recommendation` message assigned by the potassium block of
`generate_fertilizer_recommendations`. -/
def potassium_recommendation_msg (soil_test : SoilTest) : String :=
  if soil_test.potassium < 100 then
    s!"Low potassium levels ({soil_test.potassium} ppm). Apply potassium fertilizer for plant health and disease resistance."
  else if soil_test.potassium > 300 then
    s!"High potassium levels ({soil_test.potassium} ppm). Reduce potassium fertilization."
  else
    s!"Potassium levels ({soil_test.potassium} ppm) are adequate."

/-- The actions appended by the potassium block of
`generate_fertilizer_recommendations`. -/
def potassium_actions (soil_test : SoilTest) : List Action :=
  if soil_test.potassium < 100 then
    [{ type := "potassium", action := "Apply potassium fertilizer (0-0-60 or potash)",
       amount := s!"{calculate_potassium_requirement soil_test.potassium} lbs per 1000 sq ft",
       priority := .medium }]
  else if soil_test.potassium > 300 then
    [{ type := "potassium", action := "Reduce potassium fertilization",
       amount := "Monitor levels and retest in 12 months",
       priority := .low }]
  else []

/-- `generate_fertilizer_recommendations` from `src/utils.py`, translated
block for block (each per-nutrient block is one of the defs above); the
`actions` list is built in the fixed pH → N → P → K append order, and the
final `priority` comes from the roll-up over the high/medium filters at the
end of the Python function (which always overwrites the provisional value
set in the pH branch). -/
def generate_fertilizer_recommendations (soil_test : SoilTest) : Recommendation :=
  let actions : List Action :=
    ph_actions soil_test ++ nitrogen_actions soil_test
      ++ phosphorus_actions soil_test ++ potassium_actions soil_test
  let overall : String :=
    if actions.any (fun a => a.priority == .high) then
      "Immediate attention required for soil pH adjustment. Address pH issues first, then nutrient deficiencies."
    else if actions.any (fun a => a.priority == .medium) then
      "Moderate nutrient deficiencies detected. Apply recommended fertilizers for optimal plant growth."
    else
      "Soil nutrient levels are generally good. Continue regular monitoring and maintenance."
  let priority : Priority :=
    if actions.any (fun a => a.priority == .high) then .high
    else if actions.any (fun a => a.priority == .medium) then .medium
    else .low
  { overall := overall
    ph_recommendation := ph_recommendation_msg soil_test
    nitrogen_recommendation := nitrogen_recommendation_msg soil_test
    phosphorus_recommendation := phosphorus_recommendation_msg soil_test
    potassium_recommendation := potassium_recommendation_msg soil_test
    priority := priority
    actions := actions }

/-- Result dictionary of `analyze_soil_health`. -/
structure HealthReport where
  score : ℚ
  status : String
  description : String
deriving DecidableEq, Repr

/-- Python's `round(x, 1)`: round to the nearest tenth (ties never occur on
the values this program produces, so the tie-breaking mode is immaterial). -/
def round1 (q : ℚ) : ℚ := (round (q * 10) : ℚ) / 10

/-- `analyze_soil_health` from `src/utils.py`, translated branch for branch. -/
def analyze_soil_health (soil_test : SoilTest) : HealthReport :=
  let ph_points : ℚ :=
    if 6.0 ≤ soil_test.ph ∧ soil_test.ph ≤ 7.0 then 1
    else if 5.5 ≤ soil_test.ph ∧ soil_test.ph ≤ 7.5 then 0.7
    else if 5.0 ≤ soil_test.ph ∧ soil_test.ph ≤ 8.0 then 0.4
    else 0
  let nitrogen_points : ℚ :=
    if 20 ≤ soil_test.nitrogen ∧ soil_test.nitrogen ≤ 50 then 1
    else if 15 ≤ soil_test.nitrogen ∧ soil_test.nitrogen ≤ 60 then 0.7
    else if 10 ≤ soil_test.nitrogen ∧ soil_test.nitrogen ≤ 80 then 0.4
    else 0
  let phosphorus_points : ℚ :=
    if 15 ≤ soil_test.phosphorus ∧ soil_test.phosphorus ≤ 50 then 1
    else if 10 ≤ soil_test.phosphorus ∧ soil_test.phosphorus ≤ 60 then 0.7
    else if 5 ≤ soil_test.phosphorus ∧ soil_test.phosphorus ≤ 80 then 0.4
    else 0
  let potassium_points : ℚ :=
    if 100 ≤ soil_test.potassium ∧ soil_test.potassium ≤ 300 then 1
    else if 75 ≤ soil_test.potassium ∧ soil_test.potassium ≤ 400 then 0.7
    else if 50 ≤ soil_test.potassium ∧ soil_test.potassium ≤ 500 then 0.4
    else 0
  let health_score : ℚ := ph_points + nitrogen_points + phosphorus_points + potassium_points
  let total_factors : ℚ := 4
  let health_percentage : ℚ := health_score / total_factors * 100
  if health_percentage ≥ 80 then
    { score := round1 health_percentage, status := "Excellent",
      description := "Your soil is in excellent condition with optimal nutrient levels." }
  else if health_percentage ≥ 60 then
    { score := round1 health_percentage, status := "Good",
      description := "Your soil is in good condition with minor adjustments needed." }
  else if health_percentage ≥ 40 then
    { score := round1 health_percentage, status := "Fair",
      description := "Your soil needs some attention to improve nutrient levels." }
  else
    { score := round1 health_percentage, status := "Poor",
      description := "Your soil requires significant improvement in multiple areas." }

/-! ### Spec-side definitions

These follow the wording of the specification, to be compared with the
definitions translated from the source. -/

/-- The larger of two priorities under the high > medium > low order. -/
def Priority.maxP (p q : Priority) : Priority :=
  if p.sev < q.sev then q else p

/-- From the spec: the maximum severity among a list of actions, with
high > medium > low and `low` for the empty list. -/
def maxSeverity (actions : List Action) : Priority :=
  actions.foldr (fun a acc => Priority.maxP a.priority acc) .low

/-- From the spec: `limeRequirement(ph)`:
ph<5.0→15; 5.0≤ph<5.5→12; 5.5≤ph<6.0→8; else→5. -/
def limeRequirement_spec (ph : ℚ) : Int :=
  if ph < 5.0 then 15
  else if 5.0 ≤ ph ∧ ph < 5.5 then 12
  else if 5.5 ≤ ph ∧ ph < 6.0 then 8
  else 5

/-- From the spec: `sulfurRequirement(ph)`: ph>8.0→10; 7.5<ph≤8.0→6; else→3. -/
def sulfurRequirement_spec (ph : ℚ) : Int :=
  if ph > 8.0 then 10
  else if 7.5 < ph ∧ ph ≤ 8.0 then 6
  else 3

/-- From the spec: `nitrogenRequirement(n)`: n<10→4, 10≤n<20→2, else→1. -/
def nitrogenRequirement_spec (n : ℚ) : Int :=
  if n < 10 then 4
  else if 10 ≤ n ∧ n < 20 then 2
  else 1

/-- From the spec: `phosphorusRequirement(p)`: p<5→3, 5≤p<15→2, else→1. -/
def phosphorusRequirement_spec (p : ℚ) : Int :=
  if p < 5 then 3
  else if 5 ≤ p ∧ p < 15 then 2
  else 1

/-- From the spec: `potassiumRequirement(k)`: k<50→4, 50≤k<100→3, else→1. -/
def potassiumRequirement_spec (k : ℚ) : Int :=
  if k < 50 then 4
  else if 50 ≤ k ∧ k < 100 then 3
  else 1

/-- From the spec: one measurement's contribution to the health score,
against nested tolerance bands: tightest band = 1.0, next = 0.7,
widest = 0.4, outside all bands = 0. -/
def bandContribution (x lo1 hi1 lo2 hi2 lo3 hi3 : ℚ) : ℚ :=
  if lo1 ≤ x ∧ x ≤ hi1 then 1
  else if lo2 ≤ x ∧ x ≤ hi2 then 0.7
  else if lo3 ≤ x ∧ x ≤ hi3 then 0.4
  else 0

/-- From the spec: sum of the four band contributions ÷ 4 × 100. -/
def healthPercentage_spec (soil_test : SoilTest) : ℚ :=
  (bandContribution soil_test.ph 6.0 7.0 5.5 7.5 5.0 8.0
    + bandContribution soil_test.nitrogen 20 50 15 60 10 80
    + bandContribution soil_test.phosphorus 15 50 10 60 5 80
    + bandContribution soil_test.potassium 100 300 75 400 50 500) / 4 * 100

/-- From the spec: status thresholds ≥80 Excellent, ≥60 Good, ≥40 Fair, else Poor. -/
def healthStatus_spec (percentage : ℚ) : String :=
  if percentage ≥ 80 then "Excellent"
  else if percentage ≥ 60 then "Good"
  else if percentage ≥ 40 then "Fair"
  else "Poor"

/-! ### Concrete inputs used by witnesses and counterexamples -/

/-- Scenario 1 of the spec: `(ph=5.5, n=10, p=10, k=50)`. -/
def stScenario1 : SoilTest :=
  { id := none, location := "field A", latitude := none, longitude := none,
    ph := 5.5, nitrogen := 10, phosphorus := 10, potassium := 50,
    notes := "", test_date := "2024-01-01" }

/-- A test with ph exactly 6.0 and all nutrients adequate. -/
def st_ph6 : SoilTest :=
  { id := none, location := "w", latitude := none, longitude := none,
    ph := 6.0, nitrogen := 30, phosphorus := 30, potassium := 200,
    notes := "", test_date := "d" }

/-- A test with ph exactly 7.5 and all nutrients adequate. -/
def st_ph75 : SoilTest :=
  { id := none, location := "w", latitude := none, longitude := none,
    ph := 7.5, nitrogen := 30, phosphorus := 30, potassium := 200,
    notes := "", test_date := "d" }

/-- A test with acidic ph 5. -/
def st_ph5 : SoilTest :=
  { id := none, location := "w", latitude := none, longitude := none,
    ph := 5, nitrogen := 30, phosphorus := 30, potassium := 200,
    notes := "", test_date := "d" }

/-- A test with alkaline ph 8. -/
def st_ph8 : SoilTest :=
  { id := none, location := "w", latitude := none, longitude := none,
    ph := 8, nitrogen := 30, phosphorus := 30, potassium := 200,
    notes := "", test_date := "d" }

/-- A test with every nutrient exactly at the lower adequate-band boundary. -/
def stBoundary : SoilTest :=
  { id := none, location := "w", latitude := none, longitude := none,
    ph := 6.5, nitrogen := 20, phosphorus := 15, potassium := 100,
    notes := "", test_date := "d" }

/-- Measurements of `stMetaB` with different metadata. -/
def stMetaA : SoilTest :=
  { id := some 1, location := "north plot", latitude := some 42, longitude := some (-71),
    ph := 6.5, nitrogen := 30, phosphorus := 30, potassium := 200,
    notes := "first sample", test_date := "2024-01-01" }

/-- Measurements of `stMetaA` with different metadata. -/
def stMetaB : SoilTest :=
  { id := some 99, location := "south plot", latitude := none, longitude := none,
    ph := 6.5, nitrogen := 30, phosphorus := 30, potassium := 200,
    notes := "retest", test_date := "2025-06-30" }

/-! ### Helper lemmas -/

lemma interp_ne_empty (pre mid post : String) (h : pre.data ≠ []) :
    pre ++ mid ++ post ≠ "" := by
  intro hab
  apply h
  have hd := congrArg String.data hab
  have he : ("" : String).data = [] := rfl
  simp only [String.data_append, he, List.append_eq_nil] at hd
  exact hd.1.1

lemma maxSeverity_cons (a : Action) (t : List Action) :
    maxSeverity (a :: t) = Priority.maxP a.priority (maxSeverity t) := rfl

lemma rollup_eq_maxSeverity (l : List Action) :
    (if l.any (fun a => a.priority == Priority.high) then Priority.high
     else if l.any (fun a => a.priority == Priority.medium) then Priority.medium
     else Priority.low) = maxSeverity l := by
  induction l with
  | nil => rfl
  | cons a t ih =>
    rw [maxSeverity_cons, ← ih]
    cases ha : a.priority with
    | low =>
      have e1 : (Priority.low == Priority.high) = false := rfl
      have e2 : (Priority.low == Priority.medium) = false := rfl
      simp only [List.any_cons, ha, e1, e2, Bool.false_or]
      split_ifs <;> rfl
    | medium =>
      have e1 : (Priority.medium == Priority.high) = false := rfl
      have e2 : (Priority.medium == Priority.medium) = true := rfl
      simp only [List.any_cons, ha, e1, e2, Bool.false_or, Bool.true_or]
      split_ifs <;> simp_all [Priority.maxP, Priority.sev]
    | high =>
      have e1 : (Priority.high == Priority.high) = true := rfl
      simp only [List.any_cons, ha, e1, Bool.true_or]
      split_ifs <;> simp_all [Priority.maxP, Priority.sev]

lemma actions_eq (st : SoilTest) :
    (generate_fertilizer_recommendations st).actions =
      ph_actions st ++ nitrogen_actions st ++ phosphorus_actions st
        ++ potassium_actions st := rfl

lemma mem_ph_actions_type {st : SoilTest} {a : Action} (ha : a ∈ ph_actions st) :
    a.type = "pH adjustment" := by
  unfold ph_actions at ha
  split_ifs at ha <;> simp_all

lemma mem_nitrogen_actions_type {st : SoilTest} {a : Action}
    (ha : a ∈ nitrogen_actions st) : a.type = "nitrogen" := by
  unfold nitrogen_actions at ha
  split_ifs at ha <;> simp_all

lemma mem_phosphorus_actions_type {st : SoilTest} {a : Action}
    (ha : a ∈ phosphorus_actions st) : a.type = "phosphorus" := by
  unfold phosphorus_actions at ha
  split_ifs at ha <;> simp_all

lemma mem_potassium_actions_type {st : SoilTest} {a : Action}
    (ha : a ∈ potassium_actions st) : a.type = "potassium" := by
  unfold potassium_actions at ha
  split_ifs at ha <;> simp_all

lemma ph_actions_eq_nil {st : SoilTest} (h1 : ¬ st.ph < 6.0) (h2 : ¬ st.ph > 7.5) :
    ph_actions st = [] := by
  unfold ph_actions
  rw [if_neg h1, if_neg h2]

lemma nitrogen_actions_eq_nil {st : SoilTest} (h1 : ¬ st.nitrogen < 20)
    (h2 : ¬ st.nitrogen > 50) : nitrogen_actions st = [] := by
  unfold nitrogen_actions
  rw [if_neg h1, if_neg h2]

lemma phosphorus_actions_eq_nil {st : SoilTest} (h1 : ¬ st.phosphorus < 15)
    (h2 : ¬ st.phosphorus > 50) : phosphorus_actions st = [] := by
  unfold phosphorus_actions
  rw [if_neg h1, if_neg h2]

lemma potassium_actions_eq_nil {st : SoilTest} (h1 : ¬ st.potassium < 100)
    (h2 : ¬ st.potassium > 300) : potassium_actions st = [] := by
  unfold potassium_actions
  rw [if_neg h1, if_neg h2]

/-! ### Claim theorems -/

/-- Claim C1: for every input, the `priority` of the returned
`Recommendation` equals the maximum severity among all emitted actions
(high > medium > low), and is `low` when the actions list is empty. -/
theorem priority_eq_max_severity (st : SoilTest) :
    (generate_fertilizer_recommendations st).priority
      = maxSeverity (generate_fertilizer_recommendations st).actions :=
  rollup_eq_maxSeverity _

/-- Claim C4: each of the five dosage functions of the source equals the
spec's dosage table at every rational input. -/
theorem dosage_tables_match_spec (x : ℚ) :
    calculate_lime_requirement x = limeRequirement_spec x
      ∧ calculate_sulfur_requirement x = sulfurRequirement_spec x
      ∧ calculate_nitrogen_requirement x = nitrogenRequirement_spec x
      ∧ calculate_phosphorus_requirement x = phosphorusRequirement_spec x
      ∧ calculate_potassium_requirement x = potassiumRequirement_spec x := by
  unfold calculate_lime_requirement limeRequirement_spec
    calculate_sulfur_requirement sulfurRequirement_spec
    calculate_nitrogen_requirement nitrogenRequirement_spec
    calculate_phosphorus_requirement phosphorusRequirement_spec
    calculate_potassium_requirement potassiumRequirement_spec
  refine ⟨?_, ?_, ?_, ?_, ?_⟩ <;> split_ifs <;> simp_all

/-- Claim C7: the engine depends only on the four measurements — two
`SoilTest` records agreeing on ph, nitrogen, phosphorus and potassium
(whatever their metadata) produce identical recommendations in every
field, including the order of `actions`. -/
theorem engine_deterministic (st1 st2 : SoilTest)
    (hph : st1.ph = st2.ph) (hn : st1.nitrogen = st2.nitrogen)
    (hp : st1.phosphorus = st2.phosphorus) (hk : st1.potassium = st2.potassium) :
    generate_fertilizer_recommendations st1 = generate_fertilizer_recommendations st2 := by
  simp only [generate_fertilizer_recommendations, ph_actions, nitrogen_actions,
    phosphorus_actions, potassium_actions, ph_recommendation_msg,
    nitrogen_recommendation_msg, phosphorus_recommendation_msg,
    potassium_recommendation_msg, hph, hn, hp, hk]

/-- Claim C7 witness: two records with the same measurements but different
id, location, coordinates, notes and test date get identical
recommendations. -/
theorem engine_deterministic_checks :
    generate_fertilizer_recommendations stMetaA = generate_fertilizer_recommendations stMetaB :=
  engine_deterministic stMetaA stMetaB rfl rfl rfl rfl

/-- Claim C8: as ph rises, the lime dosage never increases and the sulfur
dosage never decreases. -/
theorem dosage_monotone (a b : ℚ) (hab : a ≤ b) :
    calculate_lime_requirement b ≤ calculate_lime_requirement a
      ∧ calculate_sulfur_requirement a ≤ calculate_sulfur_requirement b := by
  unfold calculate_lime_requirement calculate_sulfur_requirement
  constructor <;> split_ifs <;> linarith

/-- Claim C8 witness: at ph 5 and 7 the lime dosage does not increase and
the sulfur dosage does not decrease. -/
theorem dosage_monotone_checks :
    calculate_lime_requirement 7 ≤ calculate_lime_requirement 5
      ∧ calculate_sulfur_requirement 5 ≤ calculate_sulfur_requirement 7 :=
  dosage_monotone 5 7 (by norm_num)

/-- Claim C3: pH classification is three-way and boundary-inclusive on the
optimal side — ph 6.0 and ph 7.5 emit no pH action, any ph below 6.0 is
reported acidic with a high-priority lime action, and any ph above 7.5 is
reported alkaline with a high-priority sulfur action. -/
theorem ph_boundary_classification (st : SoilTest) :
    (st.ph = 6.0 → ∀ a ∈ (generate_fertilizer_recommendations st).actions,
        a.type ≠ "pH adjustment")
    ∧ (st.ph = 7.5 → ∀ a ∈ (generate_fertilizer_recommendations st).actions,
        a.type ≠ "pH adjustment")
    ∧ (st.ph < 6.0 →
        (generate_fertilizer_recommendations st).ph_recommendation
          = s!"Soil is acidic (pH {st.ph}). Apply lime to raise pH to 6.0-7.0 range for optimal nutrient availability."
        ∧ Action.mk "pH adjustment" "Apply agricultural lime"
            (s!"{calculate_lime_requirement st.ph} lbs per 1000 sq ft") .high
            ∈ (generate_fertilizer_recommendations st).actions)
    ∧ (st.ph > 7.5 →
        (generate_fertilizer_recommendations st).ph_recommendation
          = s!"Soil is alkaline (pH {st.ph}). Apply sulfur or organic matter to lower pH."
        ∧ Action.mk "pH adjustment" "Apply elemental sulfur"
            (s!"{calculate_sulfur_requirement st.ph} lbs per 1000 sq ft") .high
            ∈ (generate_fertilizer_recommendations st).actions) := by
  refine ⟨?_, ?_, ?_, ?_⟩
  · intro h a ha
    rw [actions_eq,
      ph_actions_eq_nil (by rw [h]; norm_num) (by rw [h]; norm_num)] at ha
    simp only [List.nil_append, List.mem_append] at ha
    rcases ha with (ha | ha) | ha
    · rw [mem_nitrogen_actions_type ha]; decide
    · rw [mem_phosphorus_actions_type ha]; decide
    · rw [mem_potassium_actions_type ha]; decide
  · intro h a ha
    rw [actions_eq,
      ph_actions_eq_nil (by rw [h]; norm_num) (by rw [h]; norm_num)] at ha
    simp only [List.nil_append, List.mem_append] at ha
    rcases ha with (ha | ha) | ha
    · rw [mem_nitrogen_actions_type ha]; decide
    · rw [mem_phosphorus_actions_type ha]; decide
    · rw [mem_potassium_actions_type ha]; decide
  · intro h
    constructor
    · show ph_recommendation_msg st = _
      unfold ph_recommendation_msg
      rw [if_pos h]
    · rw [actions_eq]
      have hacts : ph_actions st =
          [Action.mk "pH adjustment" "Apply agricultural lime"
            (s!"{calculate_lime_requirement st.ph} lbs per 1000 sq ft") .high] := by
        unfold ph_actions
        rw [if_pos h]
      rw [hacts]
      simp
  · intro h
    have h6 : ¬ st.ph < 6.0 := by linarith
    constructor
    · show ph_recommendation_msg st = _
      unfold ph_recommendation_msg
      rw [if_neg h6, if_pos h]
    · rw [actions_eq]
      have hacts : ph_actions st =
          [Action.mk "pH adjustment" "Apply elemental sulfur"
            (s!"{calculate_sulfur_requirement st.ph} lbs per 1000 sq ft") .high] := by
        unfold ph_actions
        rw [if_neg h6, if_pos h]
      rw [hacts]
      simp

/-- Claim C3 witness: at ph 6.0 and 7.5 no pH action appears among the
emitted actions, while ph 5 puts the lime action and ph 8 the sulfur
action in the list. -/
theorem ph_boundary_classification_checks :
    (∀ a ∈ (generate_fertilizer_recommendations st_ph6).actions,
        a.type ≠ "pH adjustment")
    ∧ (∀ a ∈ (generate_fertilizer_recommendations st_ph75).actions,
        a.type ≠ "pH adjustment")
    ∧ Action.mk "pH adjustment" "Apply agricultural lime"
        (s!"{calculate_lime_requirement st_ph5.ph} lbs per 1000 sq ft") .high
        ∈ (generate_fertilizer_recommendations st_ph5).actions
    ∧ Action.mk "pH adjustment" "Apply elemental sulfur"
        (s!"{calculate_sulfur_requirement st_ph8.ph} lbs per 1000 sq ft") .high
        ∈ (generate_fertilizer_recommendations st_ph8).actions :=
  ⟨(ph_boundary_classification st_ph6).1 rfl,
   (ph_boundary_classification st_ph75).2.1 rfl,
   ((ph_boundary_classification st_ph5).2.2.1 (by show (5 : ℚ) < 6.0; norm_num)).2,
   ((ph_boundary_classification st_ph8).2.2.2 (by show (8 : ℚ) > 7.5; norm_num)).2⟩

/-- Claim C5: the engine is total — every input, plausible or not, yields a
recommendation whose five text fields are populated and whose priority is
one of low, medium, high. -/
theorem engine_total_structurally_valid (st : SoilTest) :
    (generate_fertilizer_recommendations st).overall ≠ ""
    ∧ (generate_fertilizer_recommendations st).ph_recommendation ≠ ""
    ∧ (generate_fertilizer_recommendations st).nitrogen_recommendation ≠ ""
    ∧ (generate_fertilizer_recommendations st).phosphorus_recommendation ≠ ""
    ∧ (generate_fertilizer_recommendations st).potassium_recommendation ≠ ""
    ∧ ((generate_fertilizer_recommendations st).priority = .low
        ∨ (generate_fertilizer_recommendations st).priority = .medium
        ∨ (generate_fertilizer_recommendations st).priority = .high) := by
  refine ⟨?_, ?_, ?_, ?_, ?_, ?_⟩
  · simp only [generate_fertilizer_recommendations]
    split_ifs <;> decide
  · show ph_recommendation_msg st ≠ ""
    unfold ph_recommendation_msg
    split_ifs <;> exact interp_ne_empty _ _ _ (by decide)
  · show nitrogen_recommendation_msg st ≠ ""
    unfold nitrogen_recommendation_msg
    split_ifs <;> exact interp_ne_empty _ _ _ (by decide)
  · show phosphorus_recommendation_msg st ≠ ""
    unfold phosphorus_recommendation_msg
    split_ifs <;> exact interp_ne_empty _ _ _ (by decide)
  · show potassium_recommendation_msg st ≠ ""
    unfold potassium_recommendation_msg
    split_ifs <;> exact interp_ne_empty _ _ _ (by decide)
  · simp only [generate_fertilizer_recommendations]
    split_ifs <;> simp

/-- Claim C6: nutrient values exactly at the adequate-band boundaries emit
no action for that nutrient. -/
theorem adequate_boundaries_emit_no_action (st : SoilTest) :
    ((st.nitrogen = 20 ∨ st.nitrogen = 50) →
        ∀ a ∈ (generate_fertilizer_recommendations st).actions, a.type ≠ "nitrogen")
    ∧ ((st.phosphorus = 15 ∨ st.phosphorus = 50) →
        ∀ a ∈ (generate_fertilizer_recommendations st).actions, a.type ≠ "phosphorus")
    ∧ ((st.potassium = 100 ∨ st.potassium = 300) →
        ∀ a ∈ (generate_fertilizer_recommendations st).actions, a.type ≠ "potassium") := by
  refine ⟨?_, ?_, ?_⟩
  · intro h a ha
    have hnil : nitrogen_actions st = [] := by
      rcases h with h | h <;>
        exact nitrogen_actions_eq_nil (by rw [h]; norm_num) (by rw [h]; norm_num)
    rw [actions_eq, hnil] at ha
    simp only [List.append_nil, List.nil_append, List.mem_append] at ha
    rcases ha with (ha | ha) | ha
    · rw [mem_ph_actions_type ha]; decide
    · rw [mem_phosphorus_actions_type ha]; decide
    · rw [mem_potassium_actions_type ha]; decide
  · intro h a ha
    have hnil : phosphorus_actions st = [] := by
      rcases h with h | h <;>
        exact phosphorus_actions_eq_nil (by rw [h]; norm_num) (by rw [h]; norm_num)
    rw [actions_eq, hnil] at ha
    simp only [List.append_nil, List.nil_append, List.mem_append] at ha
    rcases ha with (ha | ha) | ha
    · rw [mem_ph_actions_type ha]; decide
    · rw [mem_nitrogen_actions_type ha]; decide
    · rw [mem_potassium_actions_type ha]; decide
  · intro h a ha
    have hnil : potassium_actions st = [] := by
      rcases h with h | h <;>
        exact potassium_actions_eq_nil (by rw [h]; norm_num) (by rw [h]; norm_num)
    rw [actions_eq, hnil] at ha
    simp only [List.append_nil, List.nil_append, List.mem_append] at ha
    rcases ha with (ha | ha) | ha
    · rw [mem_ph_actions_type ha]; decide
    · rw [mem_nitrogen_actions_type ha]; decide
    · rw [mem_phosphorus_actions_type ha]; decide

/-- Claim C6 witness: with nitrogen 20, phosphorus 15 and potassium 100 no
nitrogen, phosphorus or potassium action is emitted. -/
theorem adequate_boundaries_emit_no_action_checks :
    (∀ a ∈ (generate_fertilizer_recommendations stBoundary).actions, a.type ≠ "nitrogen")
    ∧ (∀ a ∈ (generate_fertilizer_recommendations stBoundary).actions, a.type ≠ "phosphorus")
    ∧ (∀ a ∈ (generate_fertilizer_recommendations stBoundary).actions, a.type ≠ "potassium") :=
  ⟨(adequate_boundaries_emit_no_action stBoundary).1 (Or.inl rfl),
   (adequate_boundaries_emit_no_action stBoundary).2.1 (Or.inl rfl),
   (adequate_boundaries_emit_no_action stBoundary).2.2 (Or.inl rfl)⟩

/-- Claim C2 counterexample: on `(ph=5.5, n=10, p=10, k=50)` the lime
dosage is not 12 and the potassium dosage is not 4, and no action carrying
those spec-claimed amounts is emitted. -/
theorem scenario1_spec_dosages_false :
    calculate_lime_requirement stScenario1.ph ≠ 12
    ∧ calculate_potassium_requirement stScenario1.potassium ≠ 4
    ∧ Action.mk "pH adjustment" "Apply agricultural lime"
        "12 lbs per 1000 sq ft" .high
        ∉ (generate_fertilizer_recommendations stScenario1).actions
    ∧ Action.mk "potassium" "Apply potassium fertilizer (0-0-60 or potash)"
        "4 lbs per 1000 sq ft" .medium
        ∉ (generate_fertilizer_recommendations stScenario1).actions := by
  refine ⟨?_, ?_, ?_, ?_⟩
  · norm_num [calculate_lime_requirement, stScenario1]
  · norm_num [calculate_potassium_requirement, stScenario1]
  · norm_num [generate_fertilizer_recommendations, ph_actions, nitrogen_actions,
      phosphorus_actions, potassium_actions, calculate_lime_requirement,
      calculate_nitrogen_requirement, calculate_phosphorus_requirement,
      calculate_potassium_requirement, stScenario1]
    decide
  · norm_num [generate_fertilizer_recommendations, ph_actions, nitrogen_actions,
      phosphorus_actions, potassium_actions, calculate_lime_requirement,
      calculate_nitrogen_requirement, calculate_phosphorus_requirement,
      calculate_potassium_requirement, stScenario1]
    decide

/-- Claim C2 as amended: on `(ph=5.5, n=10, p=10, k=50)` the engine emits
exactly the four actions lime 8 lbs (high), nitrogen 2 lbs (medium),
phosphorus 2 lbs (medium), potassium 3 lbs (medium), and the overall
priority is high. -/
theorem scenario1_eval :
    (generate_fertilizer_recommendations stScenario1).actions =
      [ { type := "pH adjustment", action := "Apply agricultural lime",
          amount := "8 lbs per 1000 sq ft", priority := .high },
        { type := "nitrogen", action := "Apply nitrogen fertilizer (21-0-0 or similar)",
          amount := "2 lbs per 1000 sq ft", priority := .medium },
        { type := "phosphorus", action := "Apply phosphorus fertilizer (0-46-0 or bone meal)",
          amount := "2 lbs per 1000 sq ft", priority := .medium },
        { type := "potassium", action := "Apply potassium fertilizer (0-0-60 or potash)",
          amount := "3 lbs per 1000 sq ft", priority := .medium } ]
    ∧ (generate_fertilizer_recommendations stScenario1).actions.length = 4
    ∧ (generate_fertilizer_recommendations stScenario1).priority = .high := by
  have hact : (generate_fertilizer_recommendations stScenario1).actions =
      [ { type := "pH adjustment", action := "Apply agricultural lime",
          amount := "8 lbs per 1000 sq ft", priority := .high },
        { type := "nitrogen", action := "Apply nitrogen fertilizer (21-0-0 or similar)",
          amount := "2 lbs per 1000 sq ft", priority := .medium },
        { type := "phosphorus", action := "Apply phosphorus fertilizer (0-46-0 or bone meal)",
          amount := "2 lbs per 1000 sq ft", priority := .medium },
        { type := "potassium", action := "Apply potassium fertilizer (0-0-60 or potash)",
          amount := "3 lbs per 1000 sq ft", priority := .medium } ] := by
    norm_num [generate_fertilizer_recommendations, ph_actions, nitrogen_actions,
      phosphorus_actions, potassium_actions, calculate_lime_requirement,
      calculate_nitrogen_requirement, calculate_phosphorus_requirement,
      calculate_potassium_requirement, stScenario1]
    decide
  refine ⟨hact, by rw [hact]; rfl, ?_⟩
  norm_num [generate_fertilizer_recommendations, ph_actions, nitrogen_actions,
    phosphorus_actions, potassium_actions, stScenario1]

/-- If ten times a rational is an integer, rounding it to one decimal place
leaves it unchanged. -/
lemma round1_eq_self (q : ℚ) (n : ℤ) (h : q * 10 = (n : ℚ)) : round1 q = q := by
  unfold round1
  rw [h, round_intCast]
  have hq : q = (n : ℚ) / 10 := by rw [← h]; ring
  rw [hq]

lemma contribution_int (x lo1 hi1 lo2 hi2 lo3 hi3 : ℚ) :
    ∃ n : ℤ, bandContribution x lo1 hi1 lo2 hi2 lo3 hi3 * 250 = (n : ℚ) := by
  unfold bandContribution
  split_ifs
  · exact ⟨250, by norm_num⟩
  · exact ⟨175, by norm_num⟩
  · exact ⟨100, by norm_num⟩
  · exact ⟨0, by norm_num⟩

lemma healthPercentage_mul_ten (st : SoilTest) :
    ∃ n : ℤ, healthPercentage_spec st * 10 = (n : ℚ) := by
  obtain ⟨n1, h1⟩ := contribution_int st.ph 6.0 7.0 5.5 7.5 5.0 8.0
  obtain ⟨n2, h2⟩ := contribution_int st.nitrogen 20 50 15 60 10 80
  obtain ⟨n3, h3⟩ := contribution_int st.phosphorus 15 50 10 60 5 80
  obtain ⟨n4, h4⟩ := contribution_int st.potassium 100 300 75 400 50 500
  refine ⟨n1 + n2 + n3 + n4, ?_⟩
  unfold healthPercentage_spec
  push_cast
  linarith

/-- Claim C9: the health score is the sum of the four banded contributions
divided by 4 and scaled to 100, and the status follows the ≥80/≥60/≥40
thresholds. -/
theorem health_score_matches_spec (st : SoilTest) :
    (analyze_soil_health st).score = healthPercentage_spec st
    ∧ (analyze_soil_health st).status
        = healthStatus_spec (healthPercentage_spec st) := by
  constructor
  · have hr : (analyze_soil_health st).score = round1 (healthPercentage_spec st) := by
      simp only [analyze_soil_health, healthPercentage_spec, bandContribution,
        apply_ite HealthReport.score, ite_self]
    obtain ⟨n, hn⟩ := healthPercentage_mul_ten st
    rw [hr]
    exact round1_eq_self _ n hn
  · simp only [analyze_soil_health, healthStatus_spec, healthPercentage_spec,
      bandContribution, apply_ite HealthReport.status]

/-- Claim C10: whenever the engine emits a lime action (ph < 6.0) the lime
dosage is 8, 12 or 15 — the function's else branch 5 is unreachable from
the engine — and whenever it emits a sulfur action (ph > 7.5) the sulfur
dosage is 6 or 10, the else branch 3 being unreachable. -/
theorem ph_dosage_reachable_values (st : SoilTest) :
    (st.ph < 6.0 →
      (calculate_lime_requirement st.ph = 8 ∨ calculate_lime_requirement st.ph = 12
        ∨ calculate_lime_requirement st.ph = 15)
      ∧ Action.mk "pH adjustment" "Apply agricultural lime"
          (s!"{calculate_lime_requirement st.ph} lbs per 1000 sq ft") .high
          ∈ (generate_fertilizer_recommendations st).actions)
    ∧ (st.ph > 7.5 →
      (calculate_sulfur_requirement st.ph = 6 ∨ calculate_sulfur_requirement st.ph = 10)
      ∧ Action.mk "pH adjustment" "Apply elemental sulfur"
          (s!"{calculate_sulfur_requirement st.ph} lbs per 1000 sq ft") .high
          ∈ (generate_fertilizer_recommendations st).actions) := by
  constructor
  · intro h
    constructor
    · unfold calculate_lime_requirement
      split_ifs <;> norm_num
    · rw [actions_eq]
      have hacts : ph_actions st =
          [Action.mk "pH adjustment" "Apply agricultural lime"
            (s!"{calculate_lime_requirement st.ph} lbs per 1000 sq ft") .high] := by
        unfold ph_actions
        rw [if_pos h]
      rw [hacts]
      simp
  · intro h
    have h6 : ¬ st.ph < 6.0 := by linarith
    constructor
    · unfold calculate_sulfur_requirement
      split_ifs <;> norm_num
    · rw [actions_eq]
      have hacts : ph_actions st =
          [Action.mk "pH adjustment" "Apply elemental sulfur"
            (s!"{calculate_sulfur_requirement st.ph} lbs per 1000 sq ft") .high] := by
        unfold ph_actions
        rw [if_neg h6, if_pos h]
      rw [hacts]
      simp

/-- Claim C10 witness: at ph 5 the emitted lime dosage is among 8, 12, 15
and at ph 8 the emitted sulfur dosage is among 6, 10. -/
theorem ph_dosage_reachable_values_checks :
    ((calculate_lime_requirement st_ph5.ph = 8
        ∨ calculate_lime_requirement st_ph5.ph = 12
        ∨ calculate_lime_requirement st_ph5.ph = 15)
      ∧ Action.mk "pH adjustment" "Apply agricultural lime"
          (s!"{calculate_lime_requirement st_ph5.ph} lbs per 1000 sq ft") .high
          ∈ (generate_fertilizer_recommendations st_ph5).actions)
    ∧ ((calculate_sulfur_requirement st_ph8.ph = 6
        ∨ calculate_sulfur_requirement st_ph8.ph = 10)
      ∧ Action.mk "pH adjustment" "Apply elemental sulfur"
          (s!"{calculate_sulfur_requirement st_ph8.ph} lbs per 1000 sq ft") .high
          ∈ (generate_fertilizer_recommendations st_ph8).actions) :=
  ⟨(ph_dosage_reachable_values st_ph5).1 (by show (5 : ℚ) < 6.0; norm_num),
   (ph_dosage_reachable_values st_ph8).2 (by show (8 : ℚ) > 7.5; norm_num)⟩

end SoilApp
